import Mathlib

/-!
# LifePlus Go SDK: client wrapper and optional-value helpers

A shallow embedding of `client_wrapper.go` and `helpers.go` of the package
`lifeplusapi`, and the properties of the session/token lifecycle, the error
wrapping, the partner-credential headers and the nil-safe dereference helpers.

Conventions of the embedding.

* A Go pointer to a scalar (`*string`, `*int32`, ...) is an `Option`: `none`
  is the nil pointer, `some x` a pointer to a cell holding `x`.
* `int32`/`int64` are the integers of the machine range; `float32`/`float64`
  are IEEE-754 bit patterns (a natural number below `2^32`, `2^64`).
* `*LifePlusClient` and `*Configuration` are addresses into a `World`: the
  clients and the configurations allocated so far.  A method with a pointer
  receiver takes the world and the address and returns `none` where Go would
  panic on a nil (here: unallocated) pointer.
* The outcome of a delegated `req.Execute()` is supplied by a function from
  the request to its outcome, so that a test stub and a real transport are
  both instances.
-/

namespace lifeplusapi

/-! ## Scalars of `helpers.go` -/

/-- Go `int32`: the integers from `-2^31` up to `2^31 - 1`. -/
abbrev int32 : Type := { n : Int // -2 ^ 31 ≤ n ∧ n < 2 ^ 31 }

/-- Go `int64`: the integers from `-2^63` up to `2^63 - 1`. -/
abbrev int64 : Type := { n : Int // -2 ^ 63 ≤ n ∧ n < 2 ^ 63 }

/-- Go `float32` as its IEEE-754 binary32 bit pattern. -/
structure float32 where
  bits : Nat
  isLt : bits < 2 ^ 32
deriving DecidableEq

/-- Go `float64` as its IEEE-754 binary64 bit pattern. -/
structure float64 where
  bits : Nat
  isLt : bits < 2 ^ 64
deriving DecidableEq

/-- The `float32` literal `0.0` (positive zero: all bits clear). -/
def float32.zero : float32 := ⟨0, by decide⟩

/-- The `float64` literal `0.0` (positive zero: all bits clear). -/
def float64.zero : float64 := ⟨0, by decide⟩

/-- A binary64 pattern is a NaN when its exponent field is all ones and its
fraction field is not zero. -/
def float64.isNaN (x : float64) : Bool :=
  (x.bits / 2 ^ 52) % 2 ^ 11 == 2047 && x.bits % 2 ^ 52 != 0

/-- Index of the highest set bit of `f` among the bits below `n` (0 when none
is set). -/
def topBit : Nat → Nat → Nat
  | 0, _ => 0
  | n + 1, f => if f / 2 ^ n % 2 = 1 then n else topBit n f

/-- The Go conversion `float64(x)` of a `float32`: exact widening.  Zeros keep
their sign, subnormals are normalised, normals have the exponent rebiased
(127 to 1023) and the fraction shifted by 29 bits, infinities stay infinities
and a NaN stays a (quiet) NaN with its payload shifted. -/
def float64OfFloat32 (x : float32) : float64 :=
  let sign := x.bits / 2 ^ 31
  let e := (x.bits / 2 ^ 23) % 2 ^ 8
  let f := x.bits % 2 ^ 23
  let body :=
    if e = 0 then
      if f = 0 then 0
      else
        let k := topBit 23 f
        (k + 874) * 2 ^ 52 + (f - 2 ^ k) * 2 ^ (52 - k)
    else if e = 255 then
      if f = 0 then 2047 * 2 ^ 52
      else 2047 * 2 ^ 52 + (f * 2 ^ 29 ||| 2 ^ 51)
    else (e + 896) * 2 ^ 52 + f * 2 ^ 29
  ⟨(sign * 2 ^ 63 + body) % 2 ^ 64, Nat.mod_lt _ (by decide)⟩

/-! ## `helpers.go` -/

/-- DerefString safely dereferences a string pointer, returns empty string if nil. -/
def DerefString (v : Option String) : String :=
  match v with
  | none => ""
  | some x => x

/-- DerefInt32 safely dereferences an int32 pointer, returns 0 if nil. -/
def DerefInt32 (v : Option int32) : int32 :=
  match v with
  | none => ⟨0, by decide⟩
  | some x => x

/-- DerefInt64 safely dereferences an int64 pointer, returns 0 if nil. -/
def DerefInt64 (v : Option int64) : int64 :=
  match v with
  | none => ⟨0, by decide⟩
  | some x => x

/-- DerefFloat32 safely dereferences a float32 pointer, returns 0.0 if nil. -/
def DerefFloat32 (v : Option float32) : float32 :=
  match v with
  | none => float32.zero
  | some x => x

/-- DerefFloat64 safely dereferences a float64 pointer, returns 0.0 if nil. -/
def DerefFloat64 (v : Option float64) : float64 :=
  match v with
  | none => float64.zero
  | some x => x

/-- DerefBool safely dereferences a bool pointer, returns false if nil. -/
def DerefBool (v : Option Bool) : Bool :=
  match v with
  | none => false
  | some x => x

/-- Float32ToFloat64 converts float32 pointer to float64, returns 0.0 if nil. -/
def Float32ToFloat64 (v : Option float32) : float64 :=
  match v with
  | none => float64.zero
  | some x => float64OfFloat32 x

/-! ## Go runtime: errors and contexts -/

/-- A Go `error` value that is not nil: either a plain message, or the value
built by `fmt.Errorf` with a `%w` verb, which records its message and the
error it wraps. -/
inductive GoError where
  | errorString (s : String)
  | wrapError (msg : String) (err : GoError)
deriving DecidableEq, Repr

/-- The method `Error()`: the message of an error. -/
def GoError.Error : GoError → String
  | .errorString s => s
  | .wrapError msg _ => msg

/-- The method `Unwrap()` behind `errors.Unwrap`: the wrapped cause, if any. -/
def GoError.Unwrap : GoError → Option GoError
  | .errorString _ => none
  | .wrapError _ err => some err

/-- The call `fmt.Errorf(text + "%w", err)`, where `text` is the literal part
of the format before the verb: the message is `text` followed by
`err.Error()` and the result wraps `err`. -/
def Errorf (text : String) (err : GoError) : GoError :=
  .wrapError (text ++ err.Error) err

/-- A key of a context value (the generated package's `contextKey` is a
string type). -/
structure contextKey where
  name : String
deriving DecidableEq, Repr

/-- Modelled from the spec: the constant `ContextAccessToken`, whose
declaration (generated `configuration.go`) is not among the sources; the key
under which a request context carries the bearer token. -/
def ContextAccessToken : contextKey := ⟨"accesstoken"⟩

/-- Go `context.Context`, as far as this package builds and reads it:
`context.Background()`, `context.WithValue(parent, key, val)` and, for the
contexts a caller may hand in, a deadline. -/
inductive Context where
  | Background
  | WithValue (parent : Context) (key : contextKey) (val : String)
  | WithDeadline (parent : Context) (deadline : Nat)
deriving DecidableEq, Repr

/-- The method `ctx.Value(key)`: the innermost value stored under `key`. -/
def Context.Value : Context → contextKey → Option String
  | .Background, _ => none
  | .WithValue parent key val, k => if k = key then some val else parent.Value k
  | .WithDeadline parent _, k => parent.Value k

/-! ## The generated client, as far as the wrapper uses it -/

/-- One entry of `ServerConfigurations`. -/
structure ServerConfiguration where
  URL : String
  Description : String
deriving DecidableEq, Repr

/-- Modelled from the spec: the type `Configuration` (generated
`configuration.go`, not among the sources): a base URL (the server list, with
host and scheme overrides) and a set of default header key/value pairs. -/
structure Configuration where
  Host : String
  Scheme : String
  DefaultHeader : String → Option String
  Servers : List ServerConfiguration

/-- Modelled from the spec: `NewConfiguration()` (generated
`configuration.go`, not among the sources): a configuration with no default
header. -/
def NewConfiguration : Configuration :=
  { Host := "", Scheme := "", DefaultHeader := fun _ => none, Servers := [] }

/-- Modelled from the spec: `Configuration.AddDefaultHeader(key, value)`
(generated `configuration.go`, not among the sources): sets the default header
`key` to `value`, the latest value replacing an earlier one for the same key
and the other keys keeping theirs. -/
def Configuration.AddDefaultHeader (c : Configuration) (key value : String) : Configuration :=
  { c with DefaultHeader := fun k => if k = key then some value else c.DefaultHeader k }

/-- The sixteen resource domains of the API client. -/
inductive Resource where
  | Auth | Products | Orders | Cart | Doctors | Appointments | Telemedicine | Packages
  | Ambulance | HomeCare | HomeSample | Addresses | Partners | Hospitals | Lookup | Wellbeing
deriving DecidableEq, Repr

/-- Modelled from the spec: a resource handle of the generated API client
(`AuthAPI`, `ProductsAPI`, ...; generated `client.go` and `api_*.go` are not
among the sources): it names its domain and belongs to the API client built
on the configuration at address `cfg`.  It holds no request context. -/
structure service where
  domain : Resource
  cfg : Nat
deriving DecidableEq, Repr

/-- Modelled from the spec: the generated `APIClient`, one handle per resource
domain.  The wrapper never mutates it, so the pointer `*APIClient` is embedded
by value. -/
structure APIClient where
  cfg : Nat
  AuthAPI : service
  ProductsAPI : service
  OrdersAPI : service
  CartAPI : service
  DoctorsAPI : service
  AppointmentsAPI : service
  TelemedicineAPI : service
  PackagesAPI : service
  AmbulanceAPI : service
  HomeCareAPI : service
  HomeSampleAPI : service
  AddressesAPI : service
  PartnersAPI : service
  HospitalsAPI : service
  LookupAPI : service
  WellbeingAPI : service
deriving DecidableEq, Repr

/-- Modelled from the spec: `NewAPIClient(cfg)` (generated `client.go`, not
among the sources): the API client on the configuration at address `cfg`. -/
def NewAPIClient (cfg : Nat) : APIClient :=
  { cfg := cfg
    AuthAPI := ⟨.Auth, cfg⟩, ProductsAPI := ⟨.Products, cfg⟩, OrdersAPI := ⟨.Orders, cfg⟩
    CartAPI := ⟨.Cart, cfg⟩, DoctorsAPI := ⟨.Doctors, cfg⟩
    AppointmentsAPI := ⟨.Appointments, cfg⟩, TelemedicineAPI := ⟨.Telemedicine, cfg⟩
    PackagesAPI := ⟨.Packages, cfg⟩, AmbulanceAPI := ⟨.Ambulance, cfg⟩
    HomeCareAPI := ⟨.HomeCare, cfg⟩, HomeSampleAPI := ⟨.HomeSample, cfg⟩
    AddressesAPI := ⟨.Addresses, cfg⟩, PartnersAPI := ⟨.Partners, cfg⟩
    HospitalsAPI := ⟨.Hospitals, cfg⟩, LookupAPI := ⟨.Lookup, cfg⟩
    WellbeingAPI := ⟨.Wellbeing, cfg⟩ }

/-- Modelled from the spec: a request of the generated client (the
`Api...Request` types are not among the sources).  A request builder accepts a
request context: the request records the handle it was built through, the
operation, the context passed to the builder and the payload set on it. -/
structure ApiRequest (β : Type) where
  ApiService : service
  operation : String
  ctx : Context
  payload : β

/-- Modelled from the spec: a request builder of a handle, such as
`AuthAPI.CreateSession(ctx)` or `ProductsAPI.ListProducts(ctx)`: the request
carries the context it is given. -/
def service.Request (a : service) (operation : String) (ctx : Context) : ApiRequest Unit :=
  ⟨a, operation, ctx, ()⟩

/-- A payload setter of a request, such as `req.Credentials(...)`. -/
def ApiRequest.With {α β : Type} (r : ApiRequest α) (payload : β) : ApiRequest β :=
  ⟨r.ApiService, r.operation, r.ctx, payload⟩

/-- The bearer token a request is authorised with: the value its context
carries under `ContextAccessToken`. -/
def ApiRequest.bearer {β : Type} (r : ApiRequest β) : Option String :=
  r.ctx.Value ContextAccessToken

/-- The transport metadata of a call (`*http.Response`). -/
structure HTTPResponse where
  StatusCode : Nat
deriving DecidableEq, Repr

/-- The outcome of `req.Execute()`: either `err != nil`, or `err == nil` with
the result and a non-nil HTTP response (the transport returns a response
whenever it returns no error, which is what lets the wrapper defer
`httpResp.Body.Close()`). -/
inductive ExecOutcome (α : Type) where
  | failed (err : GoError)
  | returned (resp : α) (httpResp : HTTPResponse)

/-- The payload of `CreateSession`. -/
structure Credentials where
  Mobile : String
  Password : String
deriving DecidableEq, Repr

/-- The result of `CreateSession` and `RegisterUser`; the wrapper reads its
`Token`. -/
structure Session where
  Token : String
deriving DecidableEq, Repr

/-! ## `client_wrapper.go` -/

/-- LifePlusClient is a high-level wrapper for easy partner integration.
`config` is the address of the configuration (`*Configuration`). -/
structure LifePlusClient where
  apiClient : APIClient
  config : Nat
  ctx : Context
  token : String
deriving DecidableEq, Repr

/-- The objects allocated so far: `configs[a]` is the configuration at address
`a`, `clients[p]` the client at address `p`.  An address at or beyond the
length of its list is not allocated. -/
structure World where
  configs : List Configuration
  clients : List LifePlusClient

/-- The world in which nothing is allocated yet. -/
def World.empty : World := ⟨[], []⟩

/-- NewLifePlusClient creates a new LifePlus client for partners: a fresh
configuration whose server list is the base URL, and a fresh client on it with
the background context and the zero value of `token`. -/
def NewLifePlusClient (w : World) (baseURL : String) : World × Nat :=
  let config := w.configs.length
  let cfg : Configuration :=
    { NewConfiguration with
      Servers := [{ URL := baseURL, Description := "Custom" }]
      Host := ""
      Scheme := "" }
  ({ configs := w.configs ++ [cfg]
     clients := w.clients ++
      [{ apiClient := NewAPIClient config, config := config, ctx := .Background, token := "" }] },
   w.clients.length)

/-- NewLifePlusClientWithConfig creates a client with custom configuration:
the client keeps the pointer it is given. -/
def NewLifePlusClientWithConfig (w : World) (config : Nat) : World × Nat :=
  ({ w with
     clients := w.clients ++
      [{ apiClient := NewAPIClient config, config := config, ctx := .Background, token := "" }] },
   w.clients.length)

/-- SetAccessToken sets the JWT bearer token for authenticated requests. -/
def SetAccessToken (w : World) (c : Nat) (token : String) : Option World :=
  match w.clients[c]? with
  | none => none
  | some cl =>
    some { w with
      clients := w.clients.set c
        { cl with token := token, ctx := .WithValue .Background ContextAccessToken token } }

/-- The call `config.AddDefaultHeader(key, value)` through the pointer
`config`. -/
def World.AddDefaultHeader (w : World) (config : Nat) (key value : String) : Option World :=
  match w.configs[config]? with
  | none => none
  | some cfg => some { w with configs := w.configs.set config (cfg.AddDefaultHeader key value) }

/-- SetPartnerCredentials sets Partner API authentication headers. -/
def SetPartnerCredentials (w : World) (c : Nat) (partnerId apiKey : String) : Option World :=
  match w.clients[c]? with
  | none => none
  | some cl =>
    match w.AddDefaultHeader cl.config "X-Partner-ID" partnerId with
    | none => none
    | some w1 => w1.AddDefaultHeader cl.config "X-API-Key" apiKey

/-- GetAccessToken returns the current access token. -/
def GetAccessToken (w : World) (c : Nat) : Option String :=
  match w.clients[c]? with
  | none => none
  | some cl => some cl.token

/-- WithContext returns a new client with the specified context: a copy of the
struct `*c` (its pointers included) with `ctx` replaced, at a fresh address. -/
def WithContext (w : World) (c : Nat) (ctx : Context) : Option (World × Nat) :=
  match w.clients[c]? with
  | none => none
  | some cl =>
    let newClient := { cl with ctx := ctx }
    some ({ w with clients := w.clients ++ [newClient] }, w.clients.length)

/-- Login authenticates and automatically sets the token.  Returns the world
after the call, the session and the error. -/
def Login (exec : ApiRequest Credentials → ExecOutcome (Option Session))
    (w : World) (c : Nat) (mobile password : String) :
    Option (World × Option Session × Option GoError) :=
  match w.clients[c]? with
  | none => none
  | some cl =>
    let req := cl.apiClient.AuthAPI.Request "CreateSession" cl.ctx
    let req := req.With ({ Mobile := mobile, Password := password } : Credentials)
    match exec req with
    | .failed err => some (w, none, some (Errorf "login failed: " err))
    | .returned resp _ =>
      match resp with
      | none => some (w, resp, none)
      | some s =>
        if s.Token ≠ "" then
          match SetAccessToken w c s.Token with
          | none => none
          | some w1 => some (w1, resp, none)
        else some (w, resp, none)

/-- Register creates a new user account and automatically sets the token. -/
def Register {UserRegistration : Type}
    (exec : ApiRequest UserRegistration → ExecOutcome (Option Session))
    (w : World) (c : Nat) (user : UserRegistration) :
    Option (World × Option Session × Option GoError) :=
  match w.clients[c]? with
  | none => none
  | some cl =>
    let req := cl.apiClient.AuthAPI.Request "RegisterUser" cl.ctx
    let req := req.With user
    match exec req with
    | .failed err => some (w, none, some (Errorf "registration failed: " err))
    | .returned resp _ =>
      match resp with
      | none => some (w, resp, none)
      | some s =>
        if s.Token ≠ "" then
          match SetAccessToken w c s.Token with
          | none => none
          | some w1 => some (w1, resp, none)
        else some (w, resp, none)

/-- GetProfile retrieves the authenticated user's profile. -/
def GetProfile {User : Type} (exec : ApiRequest Unit → ExecOutcome (Option User))
    (w : World) (c : Nat) : Option (Option User × Option GoError) :=
  match w.clients[c]? with
  | none => none
  | some cl =>
    let req := cl.apiClient.AuthAPI.Request "GetProfile" cl.ctx
    match exec req with
    | .failed err => some (none, some (Errorf "failed to get profile: " err))
    | .returned resp _ => some (resp, none)

/-- Logout invalidates the current session. -/
def Logout (exec : ApiRequest Unit → ExecOutcome Unit) (w : World) (c : Nat) :
    Option (World × Option GoError) :=
  match w.clients[c]? with
  | none => none
  | some cl =>
    let req := cl.apiClient.AuthAPI.Request "DeleteSession" cl.ctx
    match exec req with
    | .failed err => some (w, some (Errorf "logout failed: " err))
    | .returned _ _ =>
      some ({ w with clients := w.clients.set c { cl with token := "", ctx := .Background } },
            none)

/-- GetAPIClient returns the underlying API client for advanced usage. -/
def GetAPIClient (w : World) (c : Nat) : Option APIClient :=
  match w.clients[c]? with
  | none => none
  | some cl => some cl.apiClient

/-- Auth returns the Auth API for authentication operations. -/
def Auth (w : World) (c : Nat) : Option service :=
  match w.clients[c]? with
  | none => none
  | some cl => some cl.apiClient.AuthAPI

/-- Products returns the Products API for pharmacy/e-commerce operations. -/
def Products (w : World) (c : Nat) : Option service :=
  match w.clients[c]? with
  | none => none
  | some cl => some cl.apiClient.ProductsAPI

/-- Orders returns the Orders API for order management. -/
def Orders (w : World) (c : Nat) : Option service :=
  match w.clients[c]? with
  | none => none
  | some cl => some cl.apiClient.OrdersAPI

/-- Cart returns the Cart API for shopping cart operations. -/
def Cart (w : World) (c : Nat) : Option service :=
  match w.clients[c]? with
  | none => none
  | some cl => some cl.apiClient.CartAPI

/-- Doctors returns the Doctors API for doctor search and slots. -/
def Doctors (w : World) (c : Nat) : Option service :=
  match w.clients[c]? with
  | none => none
  | some cl => some cl.apiClient.DoctorsAPI

/-- Appointments returns the Appointments API for booking appointments. -/
def Appointments (w : World) (c : Nat) : Option service :=
  match w.clients[c]? with
  | none => none
  | some cl => some cl.apiClient.AppointmentsAPI

/-- Telemedicine returns the Telemedicine API for video consultations. -/
def Telemedicine (w : World) (c : Nat) : Option service :=
  match w.clients[c]? with
  | none => none
  | some cl => some cl.apiClient.TelemedicineAPI

/-- Packages returns the Packages API for health packages. -/
def Packages (w : World) (c : Nat) : Option service :=
  match w.clients[c]? with
  | none => none
  | some cl => some cl.apiClient.PackagesAPI

/-- Ambulance returns the Ambulance API for ambulance services. -/
def Ambulance (w : World) (c : Nat) : Option service :=
  match w.clients[c]? with
  | none => none
  | some cl => some cl.apiClient.AmbulanceAPI

/-- HomeCare returns the Home Care API for home care services. -/
def HomeCare (w : World) (c : Nat) : Option service :=
  match w.clients[c]? with
  | none => none
  | some cl => some cl.apiClient.HomeCareAPI

/-- HomeSample returns the Home Sample API for home sample collection. -/
def HomeSample (w : World) (c : Nat) : Option service :=
  match w.clients[c]? with
  | none => none
  | some cl => some cl.apiClient.HomeSampleAPI

/-- Addresses returns the Addresses API for address management. -/
def Addresses (w : World) (c : Nat) : Option service :=
  match w.clients[c]? with
  | none => none
  | some cl => some cl.apiClient.AddressesAPI

/-- Partners returns the Partners API for partner information. -/
def Partners (w : World) (c : Nat) : Option service :=
  match w.clients[c]? with
  | none => none
  | some cl => some cl.apiClient.PartnersAPI

/-- Hospitals returns the Hospitals API for hospital information. -/
def Hospitals (w : World) (c : Nat) : Option service :=
  match w.clients[c]? with
  | none => none
  | some cl => some cl.apiClient.HospitalsAPI

/-- Lookup returns the Lookup API for reference data. -/
def Lookup (w : World) (c : Nat) : Option service :=
  match w.clients[c]? with
  | none => none
  | some cl => some cl.apiClient.LookupAPI

/-- Wellbeing returns the Wellbeing API for wellbeing services. -/
def Wellbeing (w : World) (c : Nat) : Option service :=
  match w.clients[c]? with
  | none => none
  | some cl => some cl.apiClient.WellbeingAPI

/-- Ping checks if the API is accessible. -/
def Ping {Countries : Type} (exec : ApiRequest Unit → ExecOutcome Countries)
    (w : World) (c : Nat) : Option (Option GoError) :=
  match w.clients[c]? with
  | none => none
  | some cl =>
    let req := cl.apiClient.LookupAPI.Request "GetCountries" cl.ctx
    match exec req with
    | .failed err => some (some (Errorf "failed to ping API: " err))
    | .returned _ _ => some none

/-! ## Observations used to state the properties -/

/-- The accessor of a resource domain. -/
def accessor : Resource → World → Nat → Option service
  | .Auth => Auth
  | .Products => Products
  | .Orders => Orders
  | .Cart => Cart
  | .Doctors => Doctors
  | .Appointments => Appointments
  | .Telemedicine => Telemedicine
  | .Packages => Packages
  | .Ambulance => Ambulance
  | .HomeCare => HomeCare
  | .HomeSample => HomeSample
  | .Addresses => Addresses
  | .Partners => Partners
  | .Hospitals => Hospitals
  | .Lookup => Lookup
  | .Wellbeing => Wellbeing

/-- The request context of the client at address `c`. -/
def requestContext (w : World) (c : Nat) : Option Context :=
  match w.clients[c]? with
  | none => none
  | some cl => some cl.ctx

/-- The default headers used by the client at address `c`: those of the
configuration its `config` pointer leads to. -/
def defaultHeaders (w : World) (c : Nat) : Option (String → Option String) :=
  match w.clients[c]? with
  | none => none
  | some cl =>
    match w.configs[cl.config]? with
    | none => none
    | some cfg => some cfg.DefaultHeader

/-- The token `GetAccessToken` returns on the client at `c` after a call that
returned the world as the first component of its result; `none` if the call
did not return. -/
def tokenAfter {α : Type} (r : Option (World × α)) (c : Nat) : Option String :=
  match r with
  | none => none
  | some (w1, _) => GetAccessToken w1 c

/-! ## Stubs and a concrete world -/

/-- The world after `NewLifePlusClient("https://example.test/api")` on an empty
heap: the client is at address 0 and its configuration at address 0. -/
def exampleWorld : World := (NewLifePlusClient World.empty "https://example.test/api").1

/-- A stub endpoint that succeeds with a session carrying `token`. -/
def stubSession {β : Type} (token : String) : ApiRequest β → ExecOutcome (Option Session) :=
  fun _ => .returned (some { Token := token }) { StatusCode := 200 }

/-- A stub endpoint that succeeds with the result `resp`. -/
def stubReturn {α β : Type} (resp : α) : ApiRequest β → ExecOutcome α :=
  fun _ => .returned resp { StatusCode := 200 }

/-- A stub endpoint that fails with a transport error of message `msg`. -/
def stubFail {α β : Type} (msg : String) : ApiRequest β → ExecOutcome α :=
  fun _ => .failed (.errorString msg)

/-- The world of `exampleWorld` after its client cached the token "abc123"
through SetAccessToken. -/
def loggedInWorld : World :=
  { exampleWorld with
    clients := [⟨NewAPIClient 0, 0, .WithValue .Background ContextAccessToken "abc123", "abc123"⟩] }

/-- The world of `exampleWorld` after a second
`NewLifePlusClient("https://example.test/other")`: clients at addresses 0 and
1, each with its own configuration. -/
def twoClientWorld : World := (NewLifePlusClient exampleWorld "https://example.test/other").1

/-! ## Lemmas on the heap -/

theorem lt_length_of_getElem?_eq_some {α : Type} {l : List α} {i : Nat} {a : α}
    (h : l[i]? = some a) : i < l.length := by
  by_contra hge
  rw [List.getElem?_eq_none (Nat.le_of_not_lt hge)] at h
  cases h

theorem getElem?_set_of_some {α : Type} {l : List α} {i : Nat} {a : α} (b : α)
    (h : l[i]? = some a) : (l.set i b)[i]? = some b := by
  simp [lt_length_of_getElem?_eq_some h]

theorem getElem?_append_of_some {α : Type} {l : List α} {i : Nat} {a : α} (m : List α)
    (h : l[i]? = some a) : (l ++ m)[i]? = some a := by
  rw [List.getElem?_append_left (lt_length_of_getElem?_eq_some h), h]

theorem getElem?_append_singleton_length {α : Type} (l : List α) (a : α) :
    (l ++ [a])[l.length]? = some a := by
  simp

/-- SetAccessToken on an allocated client returns, and the client then holds
the token and the background context extended with it. -/
theorem SetAccessToken_of_some {w : World} {c : Nat} {cl : LifePlusClient} (t : String)
    (hc : w.clients[c]? = some cl) :
    ∃ w1, SetAccessToken w c t = some w1 ∧ w1.configs = w.configs ∧
      w1.clients = w.clients.set c
        { cl with token := t, ctx := .WithValue .Background ContextAccessToken t } ∧
      w1.clients[c]? =
        some { cl with token := t, ctx := .WithValue .Background ContextAccessToken t } := by
  refine ⟨{ w with
      clients := w.clients.set c
        { cl with token := t, ctx := .WithValue .Background ContextAccessToken t } },
    by simp only [SetAccessToken, hc], rfl, rfl, ?_⟩
  exact getElem?_set_of_some _ hc

/-- SetPartnerCredentials on an allocated client with an allocated
configuration returns; it rewrites that configuration alone and no client. -/
theorem SetPartnerCredentials_of_some {w : World} {c : Nat} {cl : LifePlusClient}
    {cfg : Configuration} (partnerId apiKey : String)
    (hc : w.clients[c]? = some cl) (hcfg : w.configs[cl.config]? = some cfg) :
    SetPartnerCredentials w c partnerId apiKey =
      some { w with
        configs := w.configs.set cl.config
          ((cfg.AddDefaultHeader "X-Partner-ID" partnerId).AddDefaultHeader
            "X-API-Key" apiKey) } := by
  simp [SetPartnerCredentials, World.AddDefaultHeader, hc, hcfg,
    getElem?_set_of_some _ hcfg]

/-- Login on an allocated client returns; it leaves the configurations and
every other client as they were, and on the client itself changes neither the
API client nor the configuration pointer. -/
theorem Login_returns_frame (exec : ApiRequest Credentials → ExecOutcome (Option Session))
    {w : World} {n : Nat} {cln : LifePlusClient} (mobile password : String)
    (hn : w.clients[n]? = some cln) :
    ∃ w1 r e cl1, Login exec w n mobile password = some (w1, r, e) ∧
      w1.configs = w.configs ∧ w1.clients[n]? = some cl1 ∧
      cl1.apiClient = cln.apiClient ∧ cl1.config = cln.config ∧
      ∀ c, c ≠ n → w1.clients[c]? = w.clients[c]? := by
  cases hex : exec ((cln.apiClient.AuthAPI.Request "CreateSession" cln.ctx).With
      (Credentials.mk mobile password)) with
  | failed err =>
    exact ⟨w, none, some (Errorf "login failed: " err), cln, by simp only [Login, hn, hex],
      rfl, hn, rfl, rfl, fun _ _ => rfl⟩
  | returned resp h =>
    cases resp with
    | none =>
      exact ⟨w, none, none, cln, by simp only [Login, hn, hex], rfl, hn, rfl, rfl,
        fun _ _ => rfl⟩
    | some s =>
      by_cases hs : s.Token = ""
      · exact ⟨w, some s, none, cln, by simp [Login, hn, hex, hs], rfl, hn, rfl, rfl,
          fun _ _ => rfl⟩
      · obtain ⟨w1, h1, hcfg, hcls, hget⟩ := SetAccessToken_of_some s.Token hn
        refine ⟨w1, some s, none, _, by simp [Login, hn, hex, hs, h1], hcfg, hget, rfl, rfl, ?_⟩
        intro c hne
        rw [hcls, List.getElem?_set_ne (Ne.symm hne)]

/-- Register on an allocated client returns, with the frame of Login. -/
theorem Register_returns_frame {UserRegistration : Type}
    (exec : ApiRequest UserRegistration → ExecOutcome (Option Session))
    {w : World} {n : Nat} {cln : LifePlusClient} (user : UserRegistration)
    (hn : w.clients[n]? = some cln) :
    ∃ w1 r e cl1, Register exec w n user = some (w1, r, e) ∧
      w1.configs = w.configs ∧ w1.clients[n]? = some cl1 ∧
      cl1.apiClient = cln.apiClient ∧ cl1.config = cln.config ∧
      ∀ c, c ≠ n → w1.clients[c]? = w.clients[c]? := by
  cases hex : exec ((cln.apiClient.AuthAPI.Request "RegisterUser" cln.ctx).With user) with
  | failed err =>
    exact ⟨w, none, some (Errorf "registration failed: " err), cln,
      by simp only [Register, hn, hex], rfl, hn, rfl, rfl, fun _ _ => rfl⟩
  | returned resp h =>
    cases resp with
    | none =>
      exact ⟨w, none, none, cln, by simp only [Register, hn, hex], rfl, hn, rfl, rfl,
        fun _ _ => rfl⟩
    | some s =>
      by_cases hs : s.Token = ""
      · exact ⟨w, some s, none, cln, by simp [Register, hn, hex, hs], rfl, hn, rfl, rfl,
          fun _ _ => rfl⟩
      · obtain ⟨w1, h1, hcfg, hcls, hget⟩ := SetAccessToken_of_some s.Token hn
        refine ⟨w1, some s, none, _, by simp [Register, hn, hex, hs, h1], hcfg, hget, rfl, rfl,
          ?_⟩
        intro c hne
        rw [hcls, List.getElem?_set_ne (Ne.symm hne)]

/-- Logout on an allocated client returns and leaves every other client as it
was. -/
theorem Logout_returns_frame (exec : ApiRequest Unit → ExecOutcome Unit)
    {w : World} {n : Nat} {cln : LifePlusClient} (hn : w.clients[n]? = some cln) :
    ∃ w1 e, Logout exec w n = some (w1, e) ∧ w1.configs = w.configs ∧
      ∀ c, c ≠ n → w1.clients[c]? = w.clients[c]? := by
  cases hex : exec (cln.apiClient.AuthAPI.Request "DeleteSession" cln.ctx) with
  | failed err =>
    exact ⟨w, some (Errorf "logout failed: " err), by simp only [Logout, hn, hex], rfl,
      fun _ _ => rfl⟩
  | returned resp h =>
    refine ⟨{ w with clients := w.clients.set n { cln with token := "", ctx := .Background } },
      none, by simp only [Logout, hn, hex], rfl, ?_⟩
    intro c hne
    exact List.getElem?_set_ne (Ne.symm hne)

/-- WithContext on an allocated client returns the next free address, holding
a copy of the client with the context replaced; nothing else changes. -/
theorem WithContext_of_some {w : World} {c : Nat} {cl : LifePlusClient} (ctx : Context)
    (hc : w.clients[c]? = some cl) :
    ∃ w1, WithContext w c ctx = some (w1, w.clients.length) ∧ w1.configs = w.configs ∧
      w.clients.length ≠ c ∧ w1.clients[c]? = some cl ∧
      w1.clients[w.clients.length]? = some { cl with ctx := ctx } := by
  refine ⟨{ w with clients := w.clients ++ [{ cl with ctx := ctx }] },
    by simp only [WithContext, hc], rfl, ?_, getElem?_append_of_some _ hc,
    getElem?_append_singleton_length _ _⟩
  exact Nat.ne_of_gt (lt_length_of_getElem?_eq_some hc)

/-- The handle an accessor returns is read off the API client of the client
struct alone. -/
theorem accessor_congr (r : Resource) {w w1 : World} {c : Nat} {cl cl1 : LifePlusClient}
    (hc : w.clients[c]? = some cl) (hc1 : w1.clients[c]? = some cl1)
    (hapi : cl1.apiClient = cl.apiClient) : accessor r w1 c = accessor r w c := by
  cases r <;>
    simp [accessor, Auth, Products, Orders, Cart, Doctors, Appointments, Telemedicine, Packages,
      Ambulance, HomeCare, HomeSample, Addresses, Partners, Hospitals, Lookup, Wellbeing,
      hc, hc1, hapi]

/-- On a client whose API client was built by NewAPIClient, each accessor
returns the handle of its own resource domain. -/
theorem accessor_NewAPIClient (r : Resource) {w : World} {c : Nat} {cl : LifePlusClient}
    {cfg : Nat} (hc : w.clients[c]? = some cl) (hapi : cl.apiClient = NewAPIClient cfg) :
    accessor r w c = some { domain := r, cfg := cfg } := by
  cases r <;>
    simp [accessor, Auth, Products, Orders, Cart, Doctors, Appointments, Telemedicine, Packages,
      Ambulance, HomeCare, HomeSample, Addresses, Partners, Hospitals, Lookup, Wellbeing,
      hc, hapi, NewAPIClient]

/-- An accessor on an allocated client returns a handle. -/
theorem accessor_of_some (r : Resource) {w : World} {c : Nat} {cl : LifePlusClient}
    (hc : w.clients[c]? = some cl) : ∃ h, accessor r w c = some h := by
  cases r <;>
    simp [accessor, Auth, Products, Orders, Cart, Doctors, Appointments, Telemedicine, Packages,
      Ambulance, HomeCare, HomeSample, Addresses, Partners, Hospitals, Lookup, Wellbeing, hc]

/-! ## Properties -/

/-- C5: each of DerefString, DerefInt32, DerefInt64, DerefFloat32, DerefFloat64
and DerefBool returns the zero default of its type (empty string, 0, 0, 0.0,
0.0, false) on a nil input, and on a pointer to `x` returns `x` unchanged, for
every `x` of the type. -/
theorem Deref_nil_default_and_present_identity :
    (DerefString none = "" ∧ ∀ x : String, DerefString (some x) = x) ∧
    ((DerefInt32 none).val = 0 ∧ ∀ x : int32, DerefInt32 (some x) = x) ∧
    ((DerefInt64 none).val = 0 ∧ ∀ x : int64, DerefInt64 (some x) = x) ∧
    ((DerefFloat32 none = float32.zero ∧ (DerefFloat32 none).bits = 0) ∧
      ∀ x : float32, DerefFloat32 (some x) = x) ∧
    ((DerefFloat64 none = float64.zero ∧ (DerefFloat64 none).bits = 0) ∧
      ∀ x : float64, DerefFloat64 (some x) = x) ∧
    (DerefBool none = false ∧ ∀ x : Bool, DerefBool (some x) = x) :=
  ⟨⟨rfl, fun _ => rfl⟩, ⟨rfl, fun _ => rfl⟩, ⟨rfl, fun _ => rfl⟩, ⟨⟨rfl, rfl⟩, fun _ => rfl⟩,
    ⟨⟨rfl, rfl⟩, fun _ => rfl⟩, ⟨rfl, fun _ => rfl⟩⟩

/-- C6: Float32ToFloat64 applies the absence policy of DerefFloat32: for every
optional 32-bit float `v`, `Float32ToFloat64 v` is the 64-bit widening of
`DerefFloat32 v`; a nil input yields exactly 0.0 (all bits clear, not a NaN)
and a pointer to `x` yields the widening of `x`. -/
theorem Float32ToFloat64_eq_widen_DerefFloat32 (v : Option float32) :
    Float32ToFloat64 v = float64OfFloat32 (DerefFloat32 v) ∧
    Float32ToFloat64 none = float64.zero ∧
    (Float32ToFloat64 none).bits = 0 ∧
    (Float32ToFloat64 none).isNaN = false ∧
    ∀ x : float32, Float32ToFloat64 (some x) = float64OfFloat32 x := by
  refine ⟨?_, rfl, rfl, by decide, fun _ => rfl⟩
  cases v with
  | none => decide
  | some x => rfl

/-- C3: GetAccessToken returns the empty string on a client freshly built by
NewLifePlusClient, for every base URL; for every string `t`, SetAccessToken(t)
followed by GetAccessToken returns exactly `t`; and the request context
SetAccessToken installs is the background context extended with `t` alone: it
carries `t` under the access-token key and nothing under any other key,
whatever token or context the client held before. -/
theorem SetAccessToken_GetAccessToken (w : World) (baseURL : String) (c : Nat)
    (cl : LifePlusClient) (t : String) (hc : w.clients[c]? = some cl) :
    GetAccessToken (NewLifePlusClient w baseURL).1 (NewLifePlusClient w baseURL).2 = some "" ∧
    ∃ w1, SetAccessToken w c t = some w1 ∧
      GetAccessToken w1 c = some t ∧
      requestContext w1 c = some (.WithValue .Background ContextAccessToken t) ∧
      ∀ k, (Context.WithValue .Background ContextAccessToken t).Value k =
        if k = ContextAccessToken then some t else none := by
  constructor
  · simp [GetAccessToken, NewLifePlusClient]
  · obtain ⟨w1, h1, -, -, h2⟩ := SetAccessToken_of_some t hc
    refine ⟨w1, h1, ?_, ?_, ?_⟩
    · simp [GetAccessToken, h2]
    · simp [requestContext, h2]
    · intro k
      simp [Context.Value]

/-- Witness of C3: on the client built for "https://example.test/api",
setting the token "abc123" and reading it back. -/
theorem SetAccessToken_GetAccessToken_witness :
    exampleWorld.clients[0]? = some ⟨NewAPIClient 0, 0, .Background, ""⟩ ∧
    ∃ w1, SetAccessToken exampleWorld 0 "abc123" = some w1 ∧
      GetAccessToken w1 0 = some "abc123" ∧
      requestContext w1 0 = some (.WithValue .Background ContextAccessToken "abc123") ∧
      ∀ k, (Context.WithValue .Background ContextAccessToken "abc123").Value k =
        if k = ContextAccessToken then some "abc123" else none :=
  ⟨rfl, (SetAccessToken_GetAccessToken exampleWorld "https://example.test/api" 0
    ⟨NewAPIClient 0, 0, .Background, ""⟩ "abc123" rfl).2⟩

/-- C2: for every client, a Logout whose delegated delete-session call
succeeds returns no error and leaves GetAccessToken returning the empty string
and the request context reset to the background context; a Logout whose
delegated call fails returns a non-nil error and leaves the world, hence the
cached token and the request context, exactly as before the call. -/
theorem Logout_clears_on_success_keeps_on_failure
    (exec : ApiRequest Unit → ExecOutcome Unit) (w : World) (c : Nat) (cl : LifePlusClient)
    (hc : w.clients[c]? = some cl) :
    (∀ r h, exec (cl.apiClient.AuthAPI.Request "DeleteSession" cl.ctx) = .returned r h →
      ∃ w1, Logout exec w c = some (w1, none) ∧
        GetAccessToken w1 c = some "" ∧ requestContext w1 c = some .Background) ∧
    (∀ e, exec (cl.apiClient.AuthAPI.Request "DeleteSession" cl.ctx) = .failed e →
      ∃ err, Logout exec w c = some (w, some err) ∧
        GetAccessToken w c = some cl.token ∧ requestContext w c = some cl.ctx) := by
  constructor
  · intro r h hex
    refine ⟨{ w with clients := w.clients.set c { cl with token := "", ctx := .Background } },
      by simp only [Logout, hc, hex], ?_, ?_⟩
    · simp [GetAccessToken, getElem?_set_of_some _ hc]
    · simp [requestContext, getElem?_set_of_some _ hc]
  · intro e hex
    refine ⟨Errorf "logout failed: " e, by simp only [Logout, hc, hex], ?_, ?_⟩
    · simp [GetAccessToken, hc]
    · simp [requestContext, hc]

/-- Witness of C2: after a login that cached "abc123", a logout against a stub
returning success leaves the empty token and the background context, and a
logout against a failing stub leaves the token "abc123" in place. -/
theorem Logout_clears_on_success_keeps_on_failure_witness :
    (∃ w1, Logout (stubReturn ()) loggedInWorld 0 = some (w1, none) ∧
      GetAccessToken w1 0 = some "" ∧ requestContext w1 0 = some .Background) ∧
    (∃ err, Logout (stubFail "connection refused") loggedInWorld 0 =
        some (loggedInWorld, some err) ∧
      GetAccessToken loggedInWorld 0 = some "abc123" ∧
      requestContext loggedInWorld 0 =
        some (.WithValue .Background ContextAccessToken "abc123")) :=
  ⟨(Logout_clears_on_success_keeps_on_failure (stubReturn ()) loggedInWorld 0
      ⟨NewAPIClient 0, 0, .WithValue .Background ContextAccessToken "abc123", "abc123"⟩
      rfl).1 () ⟨200⟩ rfl,
   (Logout_clears_on_success_keeps_on_failure (stubFail "connection refused") loggedInWorld 0
      ⟨NewAPIClient 0, 0, .WithValue .Background ContextAccessToken "abc123", "abc123"⟩
      rfl).2 (.errorString "connection refused") rfl⟩

/-- C1: for Login and for Register, for every prior cached token `p` (the
token of the client before the call) and every outcome of the delegated call:
GetAccessToken afterwards returns the token of the response when the call
succeeded with a non-nil response whose token is non-empty, and still returns
`p` in every other case: the response token is empty, the response is nil, or
the call failed. -/
theorem Login_Register_cache_token
    (execL : ApiRequest Credentials → ExecOutcome (Option Session))
    {UserRegistration : Type}
    (execR : ApiRequest UserRegistration → ExecOutcome (Option Session))
    (w : World) (c : Nat) (cl : LifePlusClient) (mobile password : String)
    (user : UserRegistration) (hc : w.clients[c]? = some cl) :
    ((∀ s h, execL ((cl.apiClient.AuthAPI.Request "CreateSession" cl.ctx).With
          (Credentials.mk mobile password)) = .returned (some s) h → s.Token ≠ "" →
        tokenAfter (Login execL w c mobile password) c = some s.Token) ∧
     (∀ s h, execL ((cl.apiClient.AuthAPI.Request "CreateSession" cl.ctx).With
          (Credentials.mk mobile password)) = .returned (some s) h → s.Token = "" →
        tokenAfter (Login execL w c mobile password) c = some cl.token) ∧
     (∀ h, execL ((cl.apiClient.AuthAPI.Request "CreateSession" cl.ctx).With
          (Credentials.mk mobile password)) = .returned none h →
        tokenAfter (Login execL w c mobile password) c = some cl.token) ∧
     (∀ e, execL ((cl.apiClient.AuthAPI.Request "CreateSession" cl.ctx).With
          (Credentials.mk mobile password)) = .failed e →
        tokenAfter (Login execL w c mobile password) c = some cl.token)) ∧
    ((∀ s h, execR ((cl.apiClient.AuthAPI.Request "RegisterUser" cl.ctx).With user) =
          .returned (some s) h → s.Token ≠ "" →
        tokenAfter (Register execR w c user) c = some s.Token) ∧
     (∀ s h, execR ((cl.apiClient.AuthAPI.Request "RegisterUser" cl.ctx).With user) =
          .returned (some s) h → s.Token = "" →
        tokenAfter (Register execR w c user) c = some cl.token) ∧
     (∀ h, execR ((cl.apiClient.AuthAPI.Request "RegisterUser" cl.ctx).With user) =
          .returned none h →
        tokenAfter (Register execR w c user) c = some cl.token) ∧
     (∀ e, execR ((cl.apiClient.AuthAPI.Request "RegisterUser" cl.ctx).With user) =
          .failed e →
        tokenAfter (Register execR w c user) c = some cl.token)) := by
  refine ⟨⟨?_, ?_, ?_, ?_⟩, ⟨?_, ?_, ?_, ?_⟩⟩
  · intro s h hex hne
    simp [tokenAfter, Login, hc, hex, hne, SetAccessToken, GetAccessToken,
      getElem?_set_of_some _ hc]
  · intro s h hex he
    simp [tokenAfter, Login, hc, hex, he, GetAccessToken]
  · intro h hex
    simp [tokenAfter, Login, hc, hex, GetAccessToken]
  · intro e hex
    simp [tokenAfter, Login, hc, hex, GetAccessToken]
  · intro s h hex hne
    simp [tokenAfter, Register, hc, hex, hne, SetAccessToken, GetAccessToken,
      getElem?_set_of_some _ hc]
  · intro s h hex he
    simp [tokenAfter, Register, hc, hex, he, GetAccessToken]
  · intro h hex
    simp [tokenAfter, Register, hc, hex, GetAccessToken]
  · intro e hex
    simp [tokenAfter, Register, hc, hex, GetAccessToken]

/-- Witness of C1: a client built for "https://example.test/api" logging in
with mobile "017..." and password "x" against a stub returning the token
"abc123" afterwards reports "abc123". -/
theorem Login_Register_cache_token_witness :
    exampleWorld.clients[0]? = some ⟨NewAPIClient 0, 0, .Background, ""⟩ ∧
    tokenAfter (Login (stubSession "abc123") exampleWorld 0 "017..." "x") 0 = some "abc123" :=
  ⟨rfl, (Login_Register_cache_token (stubSession "abc123")
    (stubSession "abc123" : ApiRequest Unit → ExecOutcome (Option Session)) exampleWorld 0
    ⟨NewAPIClient 0, 0, .Background, ""⟩ "017..." "x" () rfl).1.1
    ⟨"abc123"⟩ ⟨200⟩ rfl (by decide)⟩

/-- C4: for each of Login, Register, GetProfile, Logout and Ping, whenever the
delegated call fails with error `e` the operation returns an error whose
message is the static text of the operation ("login failed", "registration
failed", "failed to get profile", "logout failed", "failed to ping API")
followed by ": " and the message of `e`, whose wrapped cause is `e` itself,
and a nil result where the operation returns a value; whenever the delegated
call succeeds the operation returns a nil error (and the result of the call). -/
theorem delegated_error_wrapped_success_nil
    (execL : ApiRequest Credentials → ExecOutcome (Option Session))
    {UserRegistration : Type}
    (execR : ApiRequest UserRegistration → ExecOutcome (Option Session))
    {User : Type} (execP : ApiRequest Unit → ExecOutcome (Option User))
    (execO : ApiRequest Unit → ExecOutcome Unit)
    {Countries : Type} (execG : ApiRequest Unit → ExecOutcome Countries)
    (w : World) (c : Nat) (cl : LifePlusClient) (mobile password : String)
    (user : UserRegistration) (hc : w.clients[c]? = some cl) :
    ((∀ e, execL ((cl.apiClient.AuthAPI.Request "CreateSession" cl.ctx).With
          (Credentials.mk mobile password)) = .failed e →
        ∃ err, Login execL w c mobile password = some (w, none, some err) ∧
          err.Error = "login failed" ++ ": " ++ e.Error ∧ err.Unwrap = some e) ∧
     (∀ r h, execL ((cl.apiClient.AuthAPI.Request "CreateSession" cl.ctx).With
          (Credentials.mk mobile password)) = .returned r h →
        ∃ w1, Login execL w c mobile password = some (w1, r, none))) ∧
    ((∀ e, execR ((cl.apiClient.AuthAPI.Request "RegisterUser" cl.ctx).With user) = .failed e →
        ∃ err, Register execR w c user = some (w, none, some err) ∧
          err.Error = "registration failed" ++ ": " ++ e.Error ∧ err.Unwrap = some e) ∧
     (∀ r h, execR ((cl.apiClient.AuthAPI.Request "RegisterUser" cl.ctx).With user) =
          .returned r h →
        ∃ w1, Register execR w c user = some (w1, r, none))) ∧
    ((∀ e, execP (cl.apiClient.AuthAPI.Request "GetProfile" cl.ctx) = .failed e →
        ∃ err, GetProfile execP w c = some (none, some err) ∧
          err.Error = "failed to get profile" ++ ": " ++ e.Error ∧ err.Unwrap = some e) ∧
     (∀ r h, execP (cl.apiClient.AuthAPI.Request "GetProfile" cl.ctx) = .returned r h →
        GetProfile execP w c = some (r, none))) ∧
    ((∀ e, execO (cl.apiClient.AuthAPI.Request "DeleteSession" cl.ctx) = .failed e →
        ∃ err, Logout execO w c = some (w, some err) ∧
          err.Error = "logout failed" ++ ": " ++ e.Error ∧ err.Unwrap = some e) ∧
     (∀ r h, execO (cl.apiClient.AuthAPI.Request "DeleteSession" cl.ctx) = .returned r h →
        ∃ w1, Logout execO w c = some (w1, none))) ∧
    ((∀ e, execG (cl.apiClient.LookupAPI.Request "GetCountries" cl.ctx) = .failed e →
        ∃ err, Ping execG w c = some (some err) ∧
          err.Error = "failed to ping API" ++ ": " ++ e.Error ∧ err.Unwrap = some e) ∧
     (∀ r h, execG (cl.apiClient.LookupAPI.Request "GetCountries" cl.ctx) = .returned r h →
        Ping execG w c = some none)) := by
  refine ⟨⟨?_, ?_⟩, ⟨?_, ?_⟩, ⟨?_, ?_⟩, ⟨?_, ?_⟩, ⟨?_, ?_⟩⟩
  · intro e hex
    exact ⟨Errorf "login failed: " e, by simp only [Login, hc, hex], rfl, rfl⟩
  · intro r h hex
    cases r with
    | none => exact ⟨w, by simp only [Login, hc, hex]⟩
    | some s =>
      by_cases hs : s.Token = ""
      · exact ⟨w, by simp [Login, hc, hex, hs]⟩
      · obtain ⟨w1, h1, -⟩ := SetAccessToken_of_some s.Token hc
        exact ⟨w1, by simp [Login, hc, hex, hs, h1]⟩
  · intro e hex
    exact ⟨Errorf "registration failed: " e, by simp only [Register, hc, hex], rfl, rfl⟩
  · intro r h hex
    cases r with
    | none => exact ⟨w, by simp only [Register, hc, hex]⟩
    | some s =>
      by_cases hs : s.Token = ""
      · exact ⟨w, by simp [Register, hc, hex, hs]⟩
      · obtain ⟨w1, h1, -⟩ := SetAccessToken_of_some s.Token hc
        exact ⟨w1, by simp [Register, hc, hex, hs, h1]⟩
  · intro e hex
    exact ⟨Errorf "failed to get profile: " e, by simp only [GetProfile, hc, hex], rfl, rfl⟩
  · intro r h hex
    simp only [GetProfile, hc, hex]
  · intro e hex
    exact ⟨Errorf "logout failed: " e, by simp only [Logout, hc, hex], rfl, rfl⟩
  · intro r h hex
    exact ⟨{ w with clients := w.clients.set c { cl with token := "", ctx := .Background } },
      by simp only [Logout, hc, hex]⟩
  · intro e hex
    exact ⟨Errorf "failed to ping API: " e, by simp only [Ping, hc, hex], rfl, rfl⟩
  · intro r h hex
    simp only [Ping, hc, hex]

/-- Witness of C4: against a stub failing with "connection refused", Login on
the example client returns a nil session and the error "login failed:
connection refused" wrapping the stub's error; against a stub returning a
session, it returns a nil error. -/
theorem delegated_error_wrapped_success_nil_witness :
    exampleWorld.clients[0]? = some ⟨NewAPIClient 0, 0, .Background, ""⟩ ∧
    (∃ err, Login (stubFail "connection refused") exampleWorld 0 "017..." "x" =
        some (exampleWorld, none, some err) ∧
      err.Error = "login failed" ++ ": " ++ "connection refused" ∧
      err.Unwrap = some (.errorString "connection refused")) ∧
    Ping (stubReturn ["BD"]) exampleWorld 0 = some none :=
  ⟨rfl,
   (delegated_error_wrapped_success_nil (stubFail "connection refused")
      (stubFail "connection refused" : ApiRequest Unit → ExecOutcome (Option Session))
      (stubFail "connection refused" : ApiRequest Unit → ExecOutcome (Option String))
      (stubFail "connection refused") (stubReturn ["BD"]) exampleWorld 0
      ⟨NewAPIClient 0, 0, .Background, ""⟩ "017..." "x" () rfl).1.1
      (.errorString "connection refused") rfl,
   (delegated_error_wrapped_success_nil (stubFail "connection refused")
      (stubFail "connection refused" : ApiRequest Unit → ExecOutcome (Option Session))
      (stubFail "connection refused" : ApiRequest Unit → ExecOutcome (Option String))
      (stubFail "connection refused") (stubReturn ["BD"]) exampleWorld 0
      ⟨NewAPIClient 0, 0, .Background, ""⟩ "017..." "x" () rfl).2.2.2.2.2
      ["BD"] ⟨200⟩ rfl⟩

/-- C7: for every pair of calls SetPartnerCredentials(p1, k1) then
SetPartnerCredentials(p2, k2) on one client, the default headers of the client
afterwards map "X-Partner-ID" to p2 and "X-API-Key" to k2, every other default
header is as before the calls, and no client changed: the cached bearer token
and the request context are those of before the calls. -/
theorem SetPartnerCredentials_last_write_wins (w : World) (c : Nat) (cl : LifePlusClient)
    (cfg : Configuration) (p1 k1 p2 k2 : String)
    (hc : w.clients[c]? = some cl) (hcfg : w.configs[cl.config]? = some cfg) :
    ∃ w1 w2 hdr, SetPartnerCredentials w c p1 k1 = some w1 ∧
      SetPartnerCredentials w1 c p2 k2 = some w2 ∧
      defaultHeaders w2 c = some hdr ∧
      hdr "X-Partner-ID" = some p2 ∧ hdr "X-API-Key" = some k2 ∧
      (∀ key, key ≠ "X-Partner-ID" → key ≠ "X-API-Key" → hdr key = cfg.DefaultHeader key) ∧
      w2.clients = w.clients ∧
      GetAccessToken w2 c = some cl.token ∧ GetAccessToken w c = some cl.token ∧
      requestContext w2 c = some cl.ctx ∧ requestContext w c = some cl.ctx := by
  have h1 := SetPartnerCredentials_of_some p1 k1 hc hcfg
  have hcfg1 := getElem?_set_of_some
    ((cfg.AddDefaultHeader "X-Partner-ID" p1).AddDefaultHeader "X-API-Key" k1) hcfg
  have h2 : SetPartnerCredentials { w with
        configs := w.configs.set cl.config
          ((cfg.AddDefaultHeader "X-Partner-ID" p1).AddDefaultHeader "X-API-Key" k1) }
      c p2 k2 = _ :=
    SetPartnerCredentials_of_some p2 k2 hc hcfg1
  have hcfg2 := getElem?_set_of_some
    ((((cfg.AddDefaultHeader "X-Partner-ID" p1).AddDefaultHeader "X-API-Key"
      k1).AddDefaultHeader "X-Partner-ID" p2).AddDefaultHeader "X-API-Key" k2) hcfg1
  refine ⟨_, _, ((((cfg.AddDefaultHeader "X-Partner-ID" p1).AddDefaultHeader "X-API-Key"
      k1).AddDefaultHeader "X-Partner-ID" p2).AddDefaultHeader "X-API-Key" k2).DefaultHeader,
    h1, h2, ?_, ?_, ?_, ?_, rfl, ?_, ?_, ?_, ?_⟩
  · simp only [defaultHeaders, hc, hcfg2]
  · simp [Configuration.AddDefaultHeader]
  · simp [Configuration.AddDefaultHeader]
  · intro key hp hk
    simp [Configuration.AddDefaultHeader, hp, hk]
  · simp [GetAccessToken, hc]
  · simp [GetAccessToken, hc]
  · simp [requestContext, hc]
  · simp [requestContext, hc]

/-- Witness of C7: on the example client, credentials ("p1", "k1") and then
("p2", "k2"). -/
theorem SetPartnerCredentials_last_write_wins_witness :
    ∃ w1 w2 hdr, SetPartnerCredentials exampleWorld 0 "p1" "k1" = some w1 ∧
      SetPartnerCredentials w1 0 "p2" "k2" = some w2 ∧
      defaultHeaders w2 0 = some hdr ∧
      hdr "X-Partner-ID" = some "p2" ∧ hdr "X-API-Key" = some "k2" ∧
      (∀ key, key ≠ "X-Partner-ID" → key ≠ "X-API-Key" → hdr key = none) ∧
      w2.clients = exampleWorld.clients ∧
      GetAccessToken w2 0 = some "" ∧ GetAccessToken exampleWorld 0 = some "" ∧
      requestContext w2 0 = some .Background ∧
      requestContext exampleWorld 0 = some .Background :=
  SetPartnerCredentials_last_write_wins exampleWorld 0 ⟨NewAPIClient 0, 0, .Background, ""⟩
    { Host := "", Scheme := "", DefaultHeader := fun _ => none,
      Servers := [⟨"https://example.test/api", "Custom"⟩] }
    "p1" "k1" "p2" "k2" rfl rfl

/-- C8 as stated fails: after SetAccessToken("abc123"), and likewise after a
successful Login whose response carries "abc123", the handle Products()
returns on the example client is the handle it returned before, and the
request built through it the way the demo does, `ListProducts` on
`context.Background()`, carries no bearer token although GetAccessToken
returns "abc123". -/
theorem accessor_handle_not_bound_to_client_context :
    ∃ w1 w2 h, SetAccessToken exampleWorld 0 "abc123" = some w1 ∧
      Login (stubSession "abc123") exampleWorld 0 "017..." "x" =
        some (w2, some { Token := "abc123" }, none) ∧
      GetAccessToken w1 0 = some "abc123" ∧ GetAccessToken w2 0 = some "abc123" ∧
      requestContext w1 0 = some (.WithValue .Background ContextAccessToken "abc123") ∧
      Products exampleWorld 0 = some h ∧ Products w1 0 = some h ∧ Products w2 0 = some h ∧
      (h.Request "ListProducts" .Background).bearer = none ∧
      (h.Request "ListProducts" .Background).ctx ≠
        .WithValue .Background ContextAccessToken "abc123" :=
  ⟨_, _, _, rfl, rfl, rfl, rfl, rfl, rfl, rfl, rfl, rfl, by decide⟩

/-- C8 amended: each resource accessor returns the matching handle of the
underlying API client of the client, a handle that holds no request context:
the handle returned after SetAccessToken(t), or after a Login (successful or
not), is the handle returned before; and a request built through the handle
has the context the caller passes to the request builder, so it is authorised
with the bearer token that context carries: `t` when the caller passes a
context carrying `t`, none when the caller passes the background context,
whatever token the client has cached. -/
theorem accessor_handle_context_free (r : Resource) (w : World) (c : Nat)
    (cl : LifePlusClient) (t : String)
    (execL : ApiRequest Credentials → ExecOutcome (Option Session))
    (mobile password : String) (hc : w.clients[c]? = some cl) :
    ∃ h, accessor r w c = some h ∧
      (∀ cfg, cl.apiClient = NewAPIClient cfg → h = { domain := r, cfg := cfg }) ∧
      (∃ w1, SetAccessToken w c t = some w1 ∧ accessor r w1 c = some h) ∧
      (∃ w1 s e, Login execL w c mobile password = some (w1, s, e) ∧
        accessor r w1 c = some h) ∧
      (∀ op ctx, (h.Request op ctx).ctx = ctx ∧
        (h.Request op ctx).bearer = ctx.Value ContextAccessToken) ∧
      (∀ op, (h.Request op (.WithValue .Background ContextAccessToken t)).bearer = some t ∧
        (h.Request op .Background).bearer = none) := by
  obtain ⟨h, hh⟩ := accessor_of_some r hc
  refine ⟨h, hh, ?_, ?_, ?_, fun _ _ => ⟨rfl, rfl⟩, fun _ => ⟨?_, rfl⟩⟩
  · intro cfg hapi
    have h2 := accessor_NewAPIClient r hc hapi
    rw [hh] at h2
    exact Option.some.inj h2
  · obtain ⟨w1, h1, -, -, hget⟩ := SetAccessToken_of_some t hc
    exact ⟨w1, h1, by rw [accessor_congr r hc hget rfl, hh]⟩
  · obtain ⟨w1, s, e, cl1, h1, -, hget, hapi, -, -⟩ :=
      Login_returns_frame execL mobile password hc
    exact ⟨w1, s, e, h1, by rw [accessor_congr r hc hget hapi, hh]⟩
  · simp [ApiRequest.bearer, service.Request, Context.Value]

/-- Witness of C8 amended: the Orders handle of the example client. -/
theorem accessor_handle_context_free_witness :
    exampleWorld.clients[0]? = some ⟨NewAPIClient 0, 0, .Background, ""⟩ ∧
    ∃ h, accessor .Orders exampleWorld 0 = some h ∧
      (∀ cfg, NewAPIClient 0 = NewAPIClient cfg → h = { domain := .Orders, cfg := cfg }) ∧
      (∃ w1, SetAccessToken exampleWorld 0 "abc123" = some w1 ∧
        accessor .Orders w1 0 = some h) ∧
      (∃ w1 s e, Login (stubSession "abc123") exampleWorld 0 "017..." "x" = some (w1, s, e) ∧
        accessor .Orders w1 0 = some h) ∧
      (∀ op ctx, (h.Request op ctx).ctx = ctx ∧
        (h.Request op ctx).bearer = ctx.Value ContextAccessToken) ∧
      (∀ op, (h.Request op (.WithValue .Background ContextAccessToken "abc123")).bearer =
          some "abc123" ∧
        (h.Request op .Background).bearer = none) :=
  ⟨rfl, accessor_handle_context_free .Orders exampleWorld 0
    ⟨NewAPIClient 0, 0, .Background, ""⟩ "abc123" (stubSession "abc123") "017..." "x" rfl⟩

/-- C9 as stated fails: the client `b` returned by WithContext on the example
client `a` is a distinct instance, yet SetPartnerCredentials on `b` changes
the default headers used by `a`; and of two clients built by
NewLifePlusClientWithConfig on one configuration, SetPartnerCredentials on the
second changes the default headers used by the first. -/
theorem configuration_shared_across_instances :
    (∃ w1 b w2 before after,
      WithContext exampleWorld 0 (.WithDeadline .Background 30) = some (w1, b) ∧ b ≠ 0 ∧
      SetPartnerCredentials w1 b "partner-1" "key-1" = some w2 ∧
      defaultHeaders w1 0 = some before ∧ defaultHeaders w2 0 = some after ∧
      before "X-Partner-ID" = none ∧ after "X-Partner-ID" = some "partner-1" ∧
      before "X-API-Key" = none ∧ after "X-API-Key" = some "key-1") ∧
    (∃ w2 before after,
      (NewLifePlusClientWithConfig exampleWorld 0).2 ≠
        (NewLifePlusClientWithConfig (NewLifePlusClientWithConfig exampleWorld 0).1 0).2 ∧
      SetPartnerCredentials
        (NewLifePlusClientWithConfig (NewLifePlusClientWithConfig exampleWorld 0).1 0).1
        (NewLifePlusClientWithConfig (NewLifePlusClientWithConfig exampleWorld 0).1 0).2
        "partner-1" "key-1" = some w2 ∧
      defaultHeaders
        (NewLifePlusClientWithConfig (NewLifePlusClientWithConfig exampleWorld 0).1 0).1
        (NewLifePlusClientWithConfig exampleWorld 0).2 = some before ∧
      defaultHeaders w2 (NewLifePlusClientWithConfig exampleWorld 0).2 = some after ∧
      before "X-Partner-ID" = none ∧ after "X-Partner-ID" = some "partner-1") :=
  ⟨⟨_, _, _, _, _, rfl, by decide, rfl, rfl, rfl, rfl, rfl, rfl, rfl⟩,
   ⟨_, _, _, by decide, rfl, rfl, rfl, rfl, rfl⟩⟩

/-- C9 amended: a client holds its configuration by pointer, so two client
instances share it exactly when their configuration pointers are equal.  For
client instances `a` and `b`, SetPartnerCredentials(p, k) on `b` leaves the
default headers used by `a` unchanged when the two configuration pointers
differ, and sets "X-Partner-ID" to p and "X-API-Key" to k in the default
headers used by `a` when they are equal.  A client built by NewLifePlusClient
has a fresh configuration, different from that of every existing client;
a.WithContext(ctx) is a distinct instance with the configuration pointer of
`a`; NewLifePlusClientWithConfig keeps the pointer it is given. -/
theorem SetPartnerCredentials_shared_iff_same_config (w : World) (a b : Nat)
    (cla clb : LifePlusClient) (cfgb : Configuration) (p k : String)
    (ha : w.clients[a]? = some cla) (hb : w.clients[b]? = some clb)
    (hcfgb : w.configs[clb.config]? = some cfgb) :
    (∃ w2, SetPartnerCredentials w b p k = some w2 ∧
      (cla.config ≠ clb.config → defaultHeaders w2 a = defaultHeaders w a) ∧
      (cla.config = clb.config → ∃ hdr, defaultHeaders w2 a = some hdr ∧
        hdr "X-Partner-ID" = some p ∧ hdr "X-API-Key" = some k)) ∧
    (∀ baseURL, ∃ cln,
      (NewLifePlusClient w baseURL).1.clients[(NewLifePlusClient w baseURL).2]? = some cln ∧
      cln.config ≠ clb.config ∧ (NewLifePlusClient w baseURL).2 ≠ b) ∧
    (∀ ctx, ∃ w1 n cln, WithContext w a ctx = some (w1, n) ∧ n ≠ a ∧
      w1.clients[n]? = some cln ∧ cln.config = cla.config) ∧
    (∀ config, ∃ cln,
      (NewLifePlusClientWithConfig w config).1.clients[(NewLifePlusClientWithConfig w config).2]?
        = some cln ∧ cln.config = config) := by
  refine ⟨⟨_, SetPartnerCredentials_of_some p k hb hcfgb, ?_, ?_⟩, ?_, ?_, ?_⟩
  · intro hne
    simp only [defaultHeaders, ha, List.getElem?_set_ne (Ne.symm hne)]
  · intro heq
    refine ⟨((cfgb.AddDefaultHeader "X-Partner-ID" p).AddDefaultHeader "X-API-Key"
      k).DefaultHeader, ?_, ?_, ?_⟩
    · simp only [defaultHeaders, ha, heq, getElem?_set_of_some _ hcfgb]
    · simp [Configuration.AddDefaultHeader]
    · simp [Configuration.AddDefaultHeader]
  · intro baseURL
    refine ⟨_, getElem?_append_singleton_length _ _, ?_, ?_⟩
    · exact Nat.ne_of_gt (lt_length_of_getElem?_eq_some hcfgb)
    · exact Nat.ne_of_gt (lt_length_of_getElem?_eq_some hb)
  · intro ctx
    obtain ⟨w1, h1, -, hne, -, hn⟩ := WithContext_of_some ctx ha
    exact ⟨w1, _, _, h1, hne, hn, rfl⟩
  · intro config
    exact ⟨_, getElem?_append_singleton_length _ _, rfl⟩

/-- Witness of C9 amended: the example client and a second client built by
NewLifePlusClient; partner credentials set on the second leave the default
headers of the first unchanged. -/
theorem SetPartnerCredentials_shared_iff_same_config_witness :
    ∃ w2, SetPartnerCredentials twoClientWorld 1 "partner-1" "key-1" = some w2 ∧
      defaultHeaders w2 0 = defaultHeaders twoClientWorld 0 :=
  have h := (SetPartnerCredentials_shared_iff_same_config twoClientWorld 0 1
    ⟨NewAPIClient 0, 0, .Background, ""⟩ ⟨NewAPIClient 1, 1, .Background, ""⟩
    { Host := "", Scheme := "", DefaultHeader := fun _ => none,
      Servers := [⟨"https://example.test/other", "Custom"⟩] }
    "partner-1" "key-1" rfl rfl rfl).1
  h.elim fun w2 hw => ⟨w2, hw.1, hw.2.1 (by decide)⟩

/-- C10: for every client `c` and context `ctx`, c.WithContext(ctx) returns a
new client (a different address) whose request context is `ctx` and whose
cached token is that of `c`, and leaves the token and the request context of
`c` unchanged; afterwards SetAccessToken, Login, Register or Logout on the
returned client, whatever the outcome of the delegated call, does not change
what GetAccessToken returns on `c`; and on the returned client SetAccessToken
replaces `ctx` by the background context extended with the token alone. -/
theorem WithContext_copy_independent (w : World) (c : Nat) (cl : LifePlusClient)
    (ctx : Context) (t : String)
    (execL : ApiRequest Credentials → ExecOutcome (Option Session))
    {UserRegistration : Type}
    (execR : ApiRequest UserRegistration → ExecOutcome (Option Session))
    (execO : ApiRequest Unit → ExecOutcome Unit)
    (mobile password : String) (user : UserRegistration)
    (hc : w.clients[c]? = some cl) :
    ∃ w1 n, WithContext w c ctx = some (w1, n) ∧ n ≠ c ∧
      requestContext w1 n = some ctx ∧ GetAccessToken w1 n = some cl.token ∧
      GetAccessToken w1 c = some cl.token ∧ requestContext w1 c = some cl.ctx ∧
      GetAccessToken w c = some cl.token ∧ requestContext w c = some cl.ctx ∧
      (∃ w2, SetAccessToken w1 n t = some w2 ∧
        GetAccessToken w2 c = some cl.token ∧ requestContext w2 c = some cl.ctx ∧
        GetAccessToken w2 n = some t ∧
        requestContext w2 n = some (.WithValue .Background ContextAccessToken t)) ∧
      tokenAfter (Login execL w1 n mobile password) c = some cl.token ∧
      tokenAfter (Register execR w1 n user) c = some cl.token ∧
      tokenAfter (Logout execO w1 n) c = some cl.token := by
  obtain ⟨w1, h1, -, hne, hc1, hn1⟩ := WithContext_of_some ctx hc
  refine ⟨w1, _, h1, hne, ?_, ?_, ?_, ?_, ?_, ?_, ?_, ?_, ?_, ?_⟩
  · simp [requestContext, hn1]
  · simp [GetAccessToken, hn1]
  · simp [GetAccessToken, hc1]
  · simp [requestContext, hc1]
  · simp [GetAccessToken, hc]
  · simp [requestContext, hc]
  · obtain ⟨w2, h2, -, hcls, hget⟩ := SetAccessToken_of_some t hn1
    have hc2 : w2.clients[c]? = some cl := by
      rw [hcls, List.getElem?_set_ne hne, hc1]
    refine ⟨w2, h2, ?_, ?_, ?_, ?_⟩
    · simp [GetAccessToken, hc2]
    · simp [requestContext, hc2]
    · simp [GetAccessToken, hget]
    · simp [requestContext, hget]
  · obtain ⟨w2, r, e, cl2, h2, -, -, -, -, hfr⟩ :=
      Login_returns_frame execL mobile password hn1
    simp [tokenAfter, h2, GetAccessToken, hfr c (Ne.symm hne), hc1]
  · obtain ⟨w2, r, e, cl2, h2, -, -, -, -, hfr⟩ := Register_returns_frame execR user hn1
    simp [tokenAfter, h2, GetAccessToken, hfr c (Ne.symm hne), hc1]
  · obtain ⟨w2, e, h2, -, hfr⟩ := Logout_returns_frame execO hn1
    simp [tokenAfter, h2, GetAccessToken, hfr c (Ne.symm hne), hc1]

/-- Witness of C10: from the client that cached "abc123", a copy made with a
deadline context; setting "other" on the copy, logging the copy in against a
stub returning "fresh", or logging it out, leaves "abc123" on the original. -/
theorem WithContext_copy_independent_witness :
    loggedInWorld.clients[0]? =
      some ⟨NewAPIClient 0, 0, .WithValue .Background ContextAccessToken "abc123", "abc123"⟩ ∧
    ∃ w1 n, WithContext loggedInWorld 0 (.WithDeadline .Background 30) = some (w1, n) ∧ n ≠ 0 ∧
      requestContext w1 n = some (.WithDeadline .Background 30) ∧
      GetAccessToken w1 n = some "abc123" ∧
      GetAccessToken w1 0 = some "abc123" ∧
      requestContext w1 0 = some (.WithValue .Background ContextAccessToken "abc123") ∧
      GetAccessToken loggedInWorld 0 = some "abc123" ∧
      requestContext loggedInWorld 0 =
        some (.WithValue .Background ContextAccessToken "abc123") ∧
      (∃ w2, SetAccessToken w1 n "other" = some w2 ∧
        GetAccessToken w2 0 = some "abc123" ∧
        requestContext w2 0 = some (.WithValue .Background ContextAccessToken "abc123") ∧
        GetAccessToken w2 n = some "other" ∧
        requestContext w2 n = some (.WithValue .Background ContextAccessToken "other")) ∧
      tokenAfter (Login (stubSession "fresh") w1 n "017..." "x") 0 = some "abc123" ∧
      tokenAfter (Register (stubSession "fresh") w1 n ()) 0 = some "abc123" ∧
      tokenAfter (Logout (stubReturn ()) w1 n) 0 = some "abc123" :=
  ⟨rfl, WithContext_copy_independent loggedInWorld 0
    ⟨NewAPIClient 0, 0, .WithValue .Background ContextAccessToken "abc123", "abc123"⟩
    (.WithDeadline .Background 30) "other" (stubSession "fresh") (stubSession "fresh")
    (stubReturn ()) "017..." "x" () rfl⟩

end lifeplusapi
